import Mathlib

/-!
Shallow embedding of `custom_components/enphase_envoy/config_flow.py`
(Enphase Envoy integration config flow for Home Assistant).

The flow-step coroutines are modelled as pure functions over an explicit
entry store (a list of configured entries).  External collaborators —
the host flow engine's entry-store primitives, the IP-version helpers
`is_ipv4_address`/`is_ipv6_address`, and the device client
(`EnvoyReader`) — are modelled as function parameters or as explicit
outcome values passed into the step, following the external-interface
contract in the specification.
-/

namespace EnphaseEnvoy

/-- Persisted entry data: `{host, serial, username, password, name}`.
Fields are `Option` because dictionary keys may be absent
(the code guards with `CONF_HOST in entry.data`). -/
structure EntryData where
  host : Option String
  serial : Option String
  username : Option String
  password : Option String
  name : Option String
deriving DecidableEq, Repr

/-- A configured entry in the host's entry store.  `ignored` models a
config entry whose source is "ignore": `_async_current_entries
(include_ignore=False)` filters those out. -/
structure ConfigEntry where
  entry_id : String
  unique_id : Option String
  title : String
  data : EntryData
  ignored : Bool
deriving DecidableEq, Repr

/-- Result of a flow step, as returned to the host flow engine. -/
inductive FlowResult where
  | showForm (errors : List (String × String))
  | abort (reason : String)
  | createEntry (title : String) (data : EntryData)
  /-- The zeroconf step fell through to `async_step_user()` with no
  user input (the form is then shown with the discovered IP pinned). -/
  | proceedUser
deriving DecidableEq, Repr

/-- `ConfigFlow._async_current_hosts`: hosts of all non-ignored entries
whose data contains `CONF_HOST`. -/
def async_current_hosts (entries : List ConfigEntry) : List String :=
  (entries.filter fun e => !e.ignored).filterMap fun e => e.data.host

/-- The host-update performed by `async_update_entry(entry,
data={**entry.data, CONF_HOST: self.ip_address})`. -/
def updateHost (ip : String) (e : ConfigEntry) : ConfigEntry :=
  { e with data := { e.data with host := some ip } }

/-- The title computed when backfilling a unique id onto an entry:
`f"{ENVOY} {serial}" if entry.title == ENVOY else ENVOY`. -/
def backfillTitle (serial title : String) : String :=
  if title = "Envoy" then "Envoy " ++ serial else "Envoy"

/-- The entry update performed by `async_update_entry(entry, title=title,
unique_id=serial)` in the unique-id backfill branch. -/
def backfillEntry (serial : String) (e : ConfigEntry) : ConfigEntry :=
  { e with title := backfillTitle serial e.title, unique_id := some serial }

/-- `ConfigFlow.async_step_zeroconf`, as a pure function over the entry
store.  `ipv4`/`ipv6` model the external `is_ipv4_address` /
`is_ipv6_address` helpers; `serial` is
`discovery_info.properties["serialnum"]` (also set as the flow's unique
id) and `ip` is `discovery_info.host` (stored in `self.ip_address`).
Returns the updated store, the list of entry ids whose reload was
scheduled, and the flow result; `none` models the `KeyError` the source
would raise on `entry.data[CONF_HOST]` when a unique-id-matching entry
has no stored host.  Ignored entries are skipped, mirroring
`_async_current_entries(include_ignore=False)`. -/
def async_step_zeroconf (ipv4 ipv6 : String → Bool) (serial ip : String) :
    List ConfigEntry → Option (List ConfigEntry × List String × FlowResult)
  | [] => some ([], [], FlowResult.proceedUser)
  | e :: rest =>
    if e.ignored then
      (async_step_zeroconf ipv4 ipv6 serial ip rest).map fun t =>
        (e :: t.1, t.2.1, t.2.2)
    else if e.unique_id = some serial then
      match e.data.host with
      | none => none
      | some h =>
        if h ≠ ip then
          if (ipv4 h && ipv4 ip) || (ipv6 h && ipv6 ip) then
            some (updateHost ip e :: rest, [e.entry_id],
              FlowResult.abort "already_configured")
          else
            some (e :: rest, [], FlowResult.abort "already_configured")
        else
          some (e :: rest, [], FlowResult.abort "already_configured")
    else if e.unique_id = none ∧ e.data.host = some ip then
      some (backfillEntry serial e :: rest, [e.entry_id],
        FlowResult.abort "already_configured")
    else
      (async_step_zeroconf ipv4 ipv6 serial ip rest).map fun t =>
        (e :: t.1, t.2.1, t.2.2)

/-- The user-form input: the schema's required fields
`{host, serial, username, password}`. -/
structure UserInput where
  host : String
  serial : String
  username : String
  password : String
deriving DecidableEq, Repr

/-- Modelled from the spec: outcome of the device client's awaitable
"fetch data" operation (`EnvoyReader.get_data`, owned by the external
reader component) — it succeeds, or "raises a connection-error kind or
an authentication-error kind on failure"; any other exception is also
possible and reaches the submit handler's broad `except`. -/
inductive GetDataOutcome where
  | success
  | enlightenError
  | envoyError
  | connectError
  | otherException
deriving DecidableEq, Repr

/-- The exception classes raised out of `validate_input` into
`async_step_user`: `CannotConnect`, `InvalidAuth`, or an unexpected
exception propagating uncaught. -/
inductive ValFailure where
  | cannotConnect
  | invalidAuth
  | unexpected
deriving DecidableEq, Repr

/-- `validate_input`: wraps the device client's `get_data` outcome —
`EnlightenError` becomes `InvalidAuth`, `EnvoyError` and
`httpx.ConnectError` become `CannotConnect`, anything else propagates
unchanged. -/
def validate_input : GetDataOutcome → Except ValFailure Unit
  | GetDataOutcome.success => Except.ok ()
  | GetDataOutcome.enlightenError => Except.error ValFailure.invalidAuth
  | GetDataOutcome.envoyError => Except.error ValFailure.cannotConnect
  | GetDataOutcome.connectError => Except.error ValFailure.cannotConnect
  | GetDataOutcome.otherException => Except.error ValFailure.unexpected

/-- Modelled from the spec: outcome of the device client's awaitable
"fetch full serial number" operation (`EnvoyReader.get_full_serial_number`)
— a serial string, or a generic transport error (`httpx.HTTPError`),
which the caller treats as best-effort. -/
inductive FetchOutcome where
  | ok (serial : String)
  | transportError
deriving DecidableEq, Repr

/-- Per-flow instance state: `self.ip_address`, the flow's unique id
(set via `async_set_unique_id`), and `self._reauth_entry`. -/
structure FlowState where
  ip_address : Option String
  unique_id : Option String
  reauth_entry : Option ConfigEntry
deriving DecidableEq, Repr

/-- Python truthiness of an optional string: `None` and `""` are falsy. -/
def truthy : Option String → Bool
  | none => false
  | some s => !(s == "")

/-- `ConfigFlow._async_envoy_name`: `f"{ENVOY} {self.unique_id}"` when
the flow's unique id is truthy, else the generic `"Envoy"`. -/
def async_envoy_name (uid : Option String) : String :=
  if truthy uid then "Envoy " ++ uid.getD "" else "Envoy"

/-- `ConfigFlow._async_set_unique_id_from_envoy`: fetch the full serial
(best effort, `httpx.HTTPError` suppressed); when a truthy serial came
back, set it as the flow's unique id and report `True`. -/
def async_set_unique_id_from_envoy (st : FlowState) (fetch : FetchOutcome) :
    FlowState × Bool :=
  match fetch with
  | FetchOutcome.ok s =>
    if s ≠ "" then ({ st with unique_id := some s }, true) else (st, false)
  | FetchOutcome.transportError => (st, false)

/-- The `if not self.unique_id and await self._async_set_unique_id_from_envoy
(envoy_reader)` step: only attempt the fetch when no truthy unique id is
known yet; the `Bool` reports whether the unique id was just set. -/
def fetchPhase (st : FlowState) (fetch : FetchOutcome) : FlowState × Bool :=
  if !(truthy st.unique_id) then async_set_unique_id_from_envoy st fetch
  else (st, false)

/-- Modelled from the spec: the host flow engine primitive behind
`self._abort_if_unique_id_configured({CONF_HOST: data[CONF_HOST]})` —
"abort if another entry already claims that id+host combination". -/
def uniqueIdHostConfigured (entries : List ConfigEntry) (uid : String)
    (host : String) : Bool :=
  entries.any fun e => e.unique_id == some uid && e.data.host == some host

/-- The entry data assembled in the submit handler:
`data = user_input.copy(); data[CONF_NAME] = name`. -/
def userInputData (ui : UserInput) (name : String) : EntryData :=
  { host := some ui.host, serial := some ui.serial,
    username := some ui.username, password := some ui.password,
    name := some name }

/-- `async_update_entry(entry, data=data)`: replace the data of the
store entry with the given id. -/
def updateEntryData (entries : List ConfigEntry) (eid : String)
    (d : EntryData) : List ConfigEntry :=
  entries.map fun e => if e.entry_id = eid then { e with data := d } else e

/-- Outcome of a user step: the (possibly updated) entry store, the
final flow state, and the flow result. -/
structure UserStepOutcome where
  entries : List ConfigEntry
  state : FlowState
  result : FlowResult
deriving DecidableEq, Repr

/-- `ConfigFlow.async_step_user`, as a pure function.  `getData` and
`fetch` are the device client's behaviours during this submission
(external per the spec); `st` is the flow instance state, `entries` the
host's entry store, `user_input` the submitted form values (`none` on
first display). -/
def async_step_user (getData : GetDataOutcome) (fetch : FetchOutcome)
    (st : FlowState) (entries : List ConfigEntry)
    (user_input : Option UserInput) : UserStepOutcome :=
  match user_input with
  | none => ⟨entries, st, FlowResult.showForm []⟩
  | some ui =>
    if st.reauth_entry = none ∧ ui.host ∈ async_current_hosts entries then
      ⟨entries, st, FlowResult.abort "already_configured"⟩
    else
      match validate_input getData with
      | Except.error ValFailure.cannotConnect =>
        ⟨entries, st, FlowResult.showForm [("base", "cannot_connect")]⟩
      | Except.error ValFailure.invalidAuth =>
        ⟨entries, st, FlowResult.showForm [("base", "invalid_auth")]⟩
      | Except.error ValFailure.unexpected =>
        ⟨entries, st, FlowResult.showForm [("base", "unknown")]⟩
      | Except.ok _ =>
        let data0 := userInputData ui (async_envoy_name st.unique_id)
        match st.reauth_entry with
        | some re =>
          ⟨updateEntryData entries re.entry_id data0, st,
            FlowResult.abort "reauth_successful"⟩
        | none =>
          let fp := fetchPhase st fetch
          let st1 := fp.1
          let data1 :=
            if fp.2 then userInputData ui (async_envoy_name st1.unique_id)
            else data0
          if truthy st1.unique_id then
            if uniqueIdHostConfigured entries (st1.unique_id.getD "") ui.host
            then ⟨entries, st1, FlowResult.abort "already_configured"⟩
            else ⟨entries, st1,
              FlowResult.createEntry (data1.name.getD "") data1⟩
          else ⟨entries, st1, FlowResult.createEntry (data1.name.getD "") data1⟩

/-- An entry the zeroconf reconciliation loop passes over without
returning: it is ignored, or it matches neither the unique-id branch
nor the unique-id-backfill branch. -/
def zcSkips (serial ip : String) (x : ConfigEntry) : Prop :=
  x.ignored = true ∨
    (x.unique_id ≠ some serial ∧ ¬(x.unique_id = none ∧ x.data.host = some ip))

instance (serial ip : String) (x : ConfigEntry) :
    Decidable (zcSkips serial ip x) := by
  unfold zcSkips; infer_instance

/-- The loop passes over a skipped head entry, keeping it unchanged. -/
lemma async_step_zeroconf_cons_skip (ipv4 ipv6 : String → Bool)
    (serial ip : String) (x : ConfigEntry) (l : List ConfigEntry)
    (hx : zcSkips serial ip x) :
    async_step_zeroconf ipv4 ipv6 serial ip (x :: l) =
      (async_step_zeroconf ipv4 ipv6 serial ip l).map fun t =>
        (x :: t.1, t.2.1, t.2.2) := by
  by_cases hig : x.ignored
  · simp [async_step_zeroconf, hig]
  · rcases hx with h | ⟨h1, h2⟩
    · exact absurd h (by simpa using hig)
    · simp [async_step_zeroconf, hig, h1, h2]

/-- The loop passes over any prefix of skipped entries. -/
lemma async_step_zeroconf_append_skip (ipv4 ipv6 : String → Bool)
    (serial ip : String) (pre l : List ConfigEntry)
    (hpre : ∀ x ∈ pre, zcSkips serial ip x) :
    async_step_zeroconf ipv4 ipv6 serial ip (pre ++ l) =
      (async_step_zeroconf ipv4 ipv6 serial ip l).map fun t =>
        (pre ++ t.1, t.2.1, t.2.2) := by
  induction pre with
  | nil =>
    simp only [List.nil_append]
    cases async_step_zeroconf ipv4 ipv6 serial ip l <;> rfl
  | cons x rest ih =>
    rw [List.cons_append,
      async_step_zeroconf_cons_skip ipv4 ipv6 serial ip x (rest ++ l)
        (hpre x (List.mem_cons_self x rest)),
      ih fun y hy => hpre y (List.mem_cons_of_mem x hy)]
    cases async_step_zeroconf ipv4 ipv6 serial ip l <;> rfl

/-- Head entry matches by unique id, host differs, same IP version:
host updated, reload scheduled, abort. -/
lemma async_step_zeroconf_head_uid_update (ipv4 ipv6 : String → Bool)
    (serial ip : String) (e : ConfigEntry) (l : List ConfigEntry)
    (h : String) (hig : e.ignored = false)
    (huid : e.unique_id = some serial) (hh : e.data.host = some h)
    (hne : h ≠ ip)
    (hver : ((ipv4 h && ipv4 ip) || (ipv6 h && ipv6 ip)) = true) :
    async_step_zeroconf ipv4 ipv6 serial ip (e :: l) =
      some (updateHost ip e :: l, [e.entry_id],
        FlowResult.abort "already_configured") := by
  simp [async_step_zeroconf, hig, huid, hh, hne, hver]

/-- Head entry matches by unique id with the same host: untouched, abort. -/
lemma async_step_zeroconf_head_uid_same (ipv4 ipv6 : String → Bool)
    (serial ip : String) (e : ConfigEntry) (l : List ConfigEntry)
    (hig : e.ignored = false) (huid : e.unique_id = some serial)
    (hh : e.data.host = some ip) :
    async_step_zeroconf ipv4 ipv6 serial ip (e :: l) =
      some (e :: l, [], FlowResult.abort "already_configured") := by
  simp [async_step_zeroconf, hig, huid, hh]

/-- Head entry matches by unique id, host differs but IP versions do
not match: untouched, abort. -/
lemma async_step_zeroconf_head_uid_diffver (ipv4 ipv6 : String → Bool)
    (serial ip : String) (e : ConfigEntry) (l : List ConfigEntry)
    (h : String) (hig : e.ignored = false)
    (huid : e.unique_id = some serial) (hh : e.data.host = some h)
    (hver : ((ipv4 h && ipv4 ip) || (ipv6 h && ipv6 ip)) = false) :
    async_step_zeroconf ipv4 ipv6 serial ip (e :: l) =
      some (e :: l, [], FlowResult.abort "already_configured") := by
  by_cases hne : h = ip
  · exact async_step_zeroconf_head_uid_same ipv4 ipv6 serial ip e l hig huid
      (hne ▸ hh)
  · simp [async_step_zeroconf, hig, huid, hh, hne, hver]

/-- Head entry has no unique id and a matching host: unique id
backfilled, retitled, reload scheduled, abort. -/
lemma async_step_zeroconf_head_backfill (ipv4 ipv6 : String → Bool)
    (serial ip : String) (e : ConfigEntry) (l : List ConfigEntry)
    (hig : e.ignored = false) (huid : e.unique_id = none)
    (hh : e.data.host = some ip) :
    async_step_zeroconf ipv4 ipv6 serial ip (e :: l) =
      some (backfillEntry serial e :: l, [e.entry_id],
        FlowResult.abort "already_configured") := by
  simp [async_step_zeroconf, hig, huid, hh]

/-- A value in the options mapping: the recognized options are ints,
booleans, and the list-valued disabled-endpoints selection. -/
inductive OptionValue where
  | intVal (n : Int)
  | boolVal (b : Bool)
  | listVal (l : List String)
deriving DecidableEq, Repr

/-- Result of an options-flow step. -/
inductive OptionsFlowResult where
  | createEntry (title : String) (data : List (String × OptionValue))
  | showForm (suggestedDisabled : List String)
deriving DecidableEq, Repr

/-- The `optional_endpoints` dict comprehension: for each catalog
endpoint whose descriptor marks it optional, the pair
`(f"endpoint_{key}", key)`.  The catalog (`ENVOY_ENDPOINTS`, modelled
from the spec as "a fixed mapping of endpoint key → descriptor
including an optional flag") is passed in as `(key, optional)` pairs. -/
def optional_endpoints (catalog : List (String × Bool)) :
    List (String × String) :=
  (catalog.filter fun p => p.2).map fun p => ("endpoint_" ++ p.1, p.1)

/-- `EnvoyOptionsFlowHandler.async_step_user`, as a pure function.
`currentDisabled` is `self.config_entry.options.get("disabled_endpoints",
[])`; on submit the handler returns `async_create_entry(title="",
data=user_input)`, and on first display it renders the schema-driven
form, whose suggested disabled-endpoints value is the stored list
pre-restricted to the optional-endpoint keys (the numeric/boolean
defaults are UI seeding only and are not modelled further). -/
def options_async_step_user (catalog : List (String × Bool))
    (currentDisabled : List String)
    (user_input : Option (List (String × OptionValue))) : OptionsFlowResult :=
  match user_input with
  | some m => OptionsFlowResult.createEntry "" m
  | none =>
    OptionsFlowResult.showForm
      (currentDisabled.filter fun ep =>
        (optional_endpoints catalog).any fun p => p.1 == ep)

/-! ## Claim theorems -/

/-- C1: a zeroconf discovery whose serial equals the unique id of the
existing non-ignored entry the reconciliation loop reaches (every
earlier store entry being passed over) always aborts the flow as
`"already_configured"`; and when the stored host differs from the
discovered host and both are the same IP version, the stored host is
updated to the discovered one and a reload of that entry is
triggered. -/
theorem zeroconf_uid_match_updates_host_and_aborts
    (ipv4 ipv6 : String → Bool) (serial ip : String)
    (pre post : List ConfigEntry) (e : ConfigEntry) (h : String)
    (hpre : ∀ x ∈ pre, zcSkips serial ip x)
    (hig : e.ignored = false)
    (huid : e.unique_id = some serial)
    (hh : e.data.host = some h) :
    (async_step_zeroconf ipv4 ipv6 serial ip (pre ++ e :: post)).map
        (fun t => t.2.2) = some (FlowResult.abort "already_configured") ∧
    (h ≠ ip → ((ipv4 h && ipv4 ip) || (ipv6 h && ipv6 ip)) = true →
      async_step_zeroconf ipv4 ipv6 serial ip (pre ++ e :: post) =
        some (pre ++ updateHost ip e :: post, [e.entry_id],
          FlowResult.abort "already_configured")) := by
  constructor
  · rw [async_step_zeroconf_append_skip ipv4 ipv6 serial ip pre _ hpre]
    by_cases hne : h = ip
    · rw [async_step_zeroconf_head_uid_same ipv4 ipv6 serial ip e post hig huid
        (hne ▸ hh)]
      rfl
    · by_cases hver : ((ipv4 h && ipv4 ip) || (ipv6 h && ipv6 ip)) = true
      · rw [async_step_zeroconf_head_uid_update ipv4 ipv6 serial ip e post h
          hig huid hh hne hver]
        rfl
      · rw [async_step_zeroconf_head_uid_diffver ipv4 ipv6 serial ip e post h
          hig huid hh (by simpa using hver)]
        rfl
  · intro hne hver
    rw [async_step_zeroconf_append_skip ipv4 ipv6 serial ip pre _ hpre,
      async_step_zeroconf_head_uid_update ipv4 ipv6 serial ip e post h
        hig huid hh hne hver]
    rfl

/-- A configured entry used to exercise the discovery theorems. -/
def sampleEntry : ConfigEntry :=
  { entry_id := "e1", unique_id := some "1234", title := "Envoy 1234",
    data := { host := some "10.0.0.5", serial := some "1234",
              username := some "u", password := some "p",
              name := some "Envoy 1234" },
    ignored := false }

/-- A toy IPv4 classifier for concrete discovery scenarios. -/
def sampleIsV4 (s : String) : Bool := !(s == "fe80::1")

/-- A toy IPv6 classifier for concrete discovery scenarios. -/
def sampleIsV6 (s : String) : Bool := s == "fe80::1"

theorem zeroconf_uid_match_updates_host_and_aborts_witness :
    (async_step_zeroconf sampleIsV4 sampleIsV6 "1234" "10.0.0.9"
        ([] ++ sampleEntry :: [])).map (fun t => t.2.2) =
      some (FlowResult.abort "already_configured") ∧
    ("10.0.0.5" ≠ "10.0.0.9" →
      ((sampleIsV4 "10.0.0.5" && sampleIsV4 "10.0.0.9") ||
        (sampleIsV6 "10.0.0.5" && sampleIsV6 "10.0.0.9")) = true →
      async_step_zeroconf sampleIsV4 sampleIsV6 "1234" "10.0.0.9"
          ([] ++ sampleEntry :: []) =
        some ([] ++ updateHost "10.0.0.9" sampleEntry :: [],
          [sampleEntry.entry_id], FlowResult.abort "already_configured")) :=
  zeroconf_uid_match_updates_host_and_aborts sampleIsV4 sampleIsV6
    "1234" "10.0.0.9" [] [] sampleEntry "10.0.0.5"
    (fun x hx => absurd hx (List.not_mem_nil x)) rfl rfl rfl

/-- C10: a zeroconf discovery whose serial equals the unique id of the
existing non-ignored entry the reconciliation loop reaches leaves the
store entirely unchanged and triggers no reload whenever the stored
host equals the discovered host, or the two hosts differ but are not of
the same IP version; the flow only aborts as `"already_configured"`. -/
theorem zeroconf_uid_match_frame
    (ipv4 ipv6 : String → Bool) (serial ip : String)
    (pre post : List ConfigEntry) (e : ConfigEntry) (h : String)
    (hpre : ∀ x ∈ pre, zcSkips serial ip x)
    (hig : e.ignored = false)
    (huid : e.unique_id = some serial)
    (hh : e.data.host = some h)
    (hcase : h = ip ∨ ((ipv4 h && ipv4 ip) || (ipv6 h && ipv6 ip)) = false) :
    async_step_zeroconf ipv4 ipv6 serial ip (pre ++ e :: post) =
      some (pre ++ e :: post, [], FlowResult.abort "already_configured") := by
  rw [async_step_zeroconf_append_skip ipv4 ipv6 serial ip pre _ hpre]
  rcases hcase with hEq | hver
  · rw [async_step_zeroconf_head_uid_same ipv4 ipv6 serial ip e post hig huid
      (hEq ▸ hh)]
    rfl
  · rw [async_step_zeroconf_head_uid_diffver ipv4 ipv6 serial ip e post h
      hig huid hh hver]
    rfl

theorem zeroconf_uid_match_frame_witness :
    async_step_zeroconf sampleIsV4 sampleIsV6 "1234" "fe80::1"
        ([] ++ sampleEntry :: []) =
      some ([] ++ sampleEntry :: [], [],
        FlowResult.abort "already_configured") :=
  zeroconf_uid_match_frame sampleIsV4 sampleIsV6 "1234" "fe80::1"
    [] [] sampleEntry "10.0.0.5"
    (fun x hx => absurd hx (List.not_mem_nil x)) rfl rfl rfl
    (Or.inr (by decide))

/-- C5: a zeroconf discovery whose serial matches no existing entry's
unique id, but whose host equals the stored host of the non-ignored
unique-id-less entry the reconciliation loop reaches, backfills the
discovered serial as that entry's unique id, retitles it, triggers a
reload of it, and aborts the flow as `"already_configured"`. -/
theorem zeroconf_backfill_unique_id
    (ipv4 ipv6 : String → Bool) (serial ip : String)
    (pre post : List ConfigEntry) (e : ConfigEntry)
    (hnouid : ∀ x ∈ pre ++ e :: post, x.unique_id ≠ some serial)
    (hpre : ∀ x ∈ pre,
      x.ignored = true ∨ ¬(x.unique_id = none ∧ x.data.host = some ip))
    (hig : e.ignored = false)
    (huid : e.unique_id = none)
    (hh : e.data.host = some ip) :
    async_step_zeroconf ipv4 ipv6 serial ip (pre ++ e :: post) =
      some (pre ++ backfillEntry serial e :: post, [e.entry_id],
        FlowResult.abort "already_configured") ∧
    (backfillEntry serial e).unique_id = some serial := by
  refine ⟨?_, rfl⟩
  rw [async_step_zeroconf_append_skip ipv4 ipv6 serial ip pre _
      (fun x hx => Or.imp_right
        (fun hb => ⟨hnouid x (List.mem_append_left _ hx), hb⟩)
        (hpre x hx)),
    async_step_zeroconf_head_backfill ipv4 ipv6 serial ip e post hig huid hh]
  rfl

/-- An entry with no unique id yet, used in the backfill scenarios. -/
def sampleBareEntry : ConfigEntry :=
  { entry_id := "e2", unique_id := none, title := "Envoy",
    data := { host := some "10.0.0.7", serial := none,
              username := some "u", password := some "p",
              name := some "Envoy" },
    ignored := false }

theorem zeroconf_backfill_unique_id_witness :
    async_step_zeroconf sampleIsV4 sampleIsV6 "5678" "10.0.0.7"
        ([] ++ sampleBareEntry :: []) =
      some ([] ++ backfillEntry "5678" sampleBareEntry :: [],
        [sampleBareEntry.entry_id], FlowResult.abort "already_configured") ∧
    (backfillEntry "5678" sampleBareEntry).unique_id = some "5678" :=
  zeroconf_backfill_unique_id sampleIsV4 sampleIsV6 "5678" "10.0.0.7"
    [] [] sampleBareEntry (by decide)
    (fun x hx => absurd hx (List.not_mem_nil x)) rfl rfl rfl

/-- C9: when a zeroconf discovery backfills a unique id onto the
unique-id-less entry the reconciliation loop reaches, the new title is
`"Envoy {serial}"` exactly when the entry's current title is the plain
`"Envoy"`; any other (e.g. user-customized) current title is replaced
by the plain generic `"Envoy"`. -/
theorem zeroconf_backfill_title_rule
    (ipv4 ipv6 : String → Bool) (serial ip : String)
    (pre post : List ConfigEntry) (e : ConfigEntry)
    (hnouid : ∀ x ∈ pre ++ e :: post, x.unique_id ≠ some serial)
    (hpre : ∀ x ∈ pre,
      x.ignored = true ∨ ¬(x.unique_id = none ∧ x.data.host = some ip))
    (hig : e.ignored = false)
    (huid : e.unique_id = none)
    (hh : e.data.host = some ip) :
    async_step_zeroconf ipv4 ipv6 serial ip (pre ++ e :: post) =
      some (pre ++ backfillEntry serial e :: post, [e.entry_id],
        FlowResult.abort "already_configured") ∧
    (e.title = "Envoy" →
      (backfillEntry serial e).title = "Envoy " ++ serial) ∧
    (e.title ≠ "Envoy" → (backfillEntry serial e).title = "Envoy") ∧
    ((backfillEntry serial e).title = "Envoy " ++ serial →
      e.title = "Envoy") := by
  refine ⟨?_, ?_, ?_, ?_⟩
  · rw [async_step_zeroconf_append_skip ipv4 ipv6 serial ip pre _
        (fun x hx => Or.imp_right
          (fun hb => ⟨hnouid x (List.mem_append_left _ hx), hb⟩)
          (hpre x hx)),
      async_step_zeroconf_head_backfill ipv4 ipv6 serial ip e post hig huid hh]
    rfl
  · intro ht
    simp [backfillEntry, backfillTitle, ht]
  · intro ht
    simp [backfillEntry, backfillTitle, ht]
  · intro ht
    by_contra hne
    have hgen : (backfillEntry serial e).title = "Envoy" := by
      simp [backfillEntry, backfillTitle, hne]
    rw [hgen] at ht
    have hlen := congrArg String.length ht
    rw [String.length_append] at hlen
    have h5 : "Envoy".length = 5 := rfl
    have h6 : "Envoy ".length = 6 := rfl
    rw [h5, h6] at hlen
    omega

/-- An entry with a user-customized title and no unique id. -/
def sampleCustomEntry : ConfigEntry :=
  { entry_id := "e3", unique_id := none, title := "Garage Envoy",
    data := { host := some "10.0.0.8", serial := none,
              username := some "u", password := some "p",
              name := some "Envoy" },
    ignored := false }

theorem zeroconf_backfill_title_rule_witness :
    async_step_zeroconf sampleIsV4 sampleIsV6 "5678" "10.0.0.8"
        ([] ++ sampleCustomEntry :: []) =
      some ([] ++ backfillEntry "5678" sampleCustomEntry :: [],
        [sampleCustomEntry.entry_id],
        FlowResult.abort "already_configured") ∧
    (sampleCustomEntry.title = "Envoy" →
      (backfillEntry "5678" sampleCustomEntry).title = "Envoy " ++ "5678") ∧
    (sampleCustomEntry.title ≠ "Envoy" →
      (backfillEntry "5678" sampleCustomEntry).title = "Envoy") ∧
    ((backfillEntry "5678" sampleCustomEntry).title = "Envoy " ++ "5678" →
      sampleCustomEntry.title = "Envoy") :=
  zeroconf_backfill_title_rule sampleIsV4 sampleIsV6 "5678" "10.0.0.8"
    [] [] sampleCustomEntry (by decide)
    (fun x hx => absurd hx (List.not_mem_nil x)) rfl rfl rfl

/-- C7: submitting the options form persists the submitted mapping
verbatim as the new options record — no filtering or rewriting, the
disabled-endpoints pre-restriction applying only to the rendered form's
suggested value — and the options flow terminates by creating the
options entry. -/
theorem options_submit_persists_verbatim
    (catalog : List (String × Bool)) (currentDisabled : List String)
    (m : List (String × OptionValue)) :
    options_async_step_user catalog currentDisabled (some m) =
      OptionsFlowResult.createEntry "" m := rfl

/-- When the fetch phase reports that no unique id was just set, the
flow state is unchanged. -/
lemma fetchPhase_fst_of_not_snd (st : FlowState) (fetch : FetchOutcome)
    (hsnd : (fetchPhase st fetch).2 = false) : (fetchPhase st fetch).1 = st := by
  unfold fetchPhase at *
  by_cases ht : truthy st.unique_id
  · simp [ht] at *
  · cases fetch with
    | ok s =>
      by_cases hs : s = "" <;>
        simp [async_set_unique_id_from_envoy, ht, hs] at *
    | transportError => simp [async_set_unique_id_from_envoy, ht]

/-- The user step never falls through: every submission terminates in a
redisplayed form, an abort, or a created entry. -/
lemma async_step_user_result_not_proceed (getData : GetDataOutcome)
    (fetch : FetchOutcome) (st : FlowState) (entries : List ConfigEntry)
    (inp : Option UserInput) :
    (async_step_user getData fetch st entries inp).result ≠
      FlowResult.proceedUser := by
  rcases inp with _ | ui
  · simp [async_step_user]
  · simp only [async_step_user]
    repeat' split
    all_goals simp

/-- C2: during validation of a user-form submission, a connection
failure (an `EnvoyError` or an `httpx.ConnectError` from the device
client) redisplays the form with inline error `"cannot_connect"`, an
authentication failure (`EnlightenError`) with `"invalid_auth"`, and
any other exception with `"unknown"`: in all three cases the flow shows
the form again instead of terminating, leaving the store and the flow
state untouched. -/
theorem user_step_validation_error_codes (fetch : FetchOutcome)
    (st : FlowState) (entries : List ConfigEntry) (ui : UserInput)
    (hreach :
      ¬(st.reauth_entry = none ∧ ui.host ∈ async_current_hosts entries)) :
    async_step_user GetDataOutcome.envoyError fetch st entries (some ui) =
      ⟨entries, st, FlowResult.showForm [("base", "cannot_connect")]⟩ ∧
    async_step_user GetDataOutcome.connectError fetch st entries (some ui) =
      ⟨entries, st, FlowResult.showForm [("base", "cannot_connect")]⟩ ∧
    async_step_user GetDataOutcome.enlightenError fetch st entries (some ui) =
      ⟨entries, st, FlowResult.showForm [("base", "invalid_auth")]⟩ ∧
    async_step_user GetDataOutcome.otherException fetch st entries (some ui) =
      ⟨entries, st, FlowResult.showForm [("base", "unknown")]⟩ := by
  refine ⟨?_, ?_, ?_, ?_⟩ <;> simp [async_step_user, validate_input, hreach]

/-- A form submission used to exercise the user-step theorems. -/
def sampleInput : UserInput :=
  { host := "10.0.0.20", serial := "1234", username := "u", password := "p" }

/-- A fresh flow state: nothing discovered, no reauth target. -/
def freshState : FlowState :=
  { ip_address := none, unique_id := none, reauth_entry := none }

theorem user_step_validation_error_codes_witness :
    async_step_user GetDataOutcome.envoyError FetchOutcome.transportError
        freshState [] (some sampleInput) =
      ⟨[], freshState, FlowResult.showForm [("base", "cannot_connect")]⟩ ∧
    async_step_user GetDataOutcome.connectError FetchOutcome.transportError
        freshState [] (some sampleInput) =
      ⟨[], freshState, FlowResult.showForm [("base", "cannot_connect")]⟩ ∧
    async_step_user GetDataOutcome.enlightenError FetchOutcome.transportError
        freshState [] (some sampleInput) =
      ⟨[], freshState, FlowResult.showForm [("base", "invalid_auth")]⟩ ∧
    async_step_user GetDataOutcome.otherException FetchOutcome.transportError
        freshState [] (some sampleInput) =
      ⟨[], freshState, FlowResult.showForm [("base", "unknown")]⟩ :=
  user_step_validation_error_codes FetchOutcome.transportError freshState
    [] sampleInput (by decide)

/-- C3: a non-reauth user-form submission whose host equals the host of
an already-configured non-ignored entry aborts as
`"already_configured"`, with the very same outcome for every possible
device-client behaviour — the live validation call is never
attempted. -/
theorem user_step_duplicate_host_aborts (getData : GetDataOutcome)
    (fetch : FetchOutcome) (st : FlowState) (entries : List ConfigEntry)
    (ui : UserInput)
    (hre : st.reauth_entry = none)
    (hmem : ui.host ∈ async_current_hosts entries) :
    async_step_user getData fetch st entries (some ui) =
      ⟨entries, st, FlowResult.abort "already_configured"⟩ := by
  simp [async_step_user, hre, hmem]

theorem user_step_duplicate_host_aborts_witness :
    async_step_user GetDataOutcome.success FetchOutcome.transportError
        { freshState with reauth_entry := none }
        [{ sampleEntry with data :=
            { sampleEntry.data with host := some "10.0.0.20" } }]
        (some sampleInput) =
      ⟨[{ sampleEntry with data :=
            { sampleEntry.data with host := some "10.0.0.20" } }],
        { freshState with reauth_entry := none },
        FlowResult.abort "already_configured"⟩ :=
  user_step_duplicate_host_aborts GetDataOutcome.success
    FetchOutcome.transportError _ _ sampleInput rfl (by decide)

/-- C4: after a successful validation in a non-reauth flow with no
prior unique id, a best-effort serial fetch that returns a (truthy)
serial leads — absent a duplicate id+host entry — to a created entry
titled `"Envoy {serial}"` with that serial as the flow's unique id,
while a failed fetch leads to a created entry titled `"Envoy"`. -/
theorem user_step_created_entry_title (fetch : FetchOutcome)
    (st : FlowState) (entries : List ConfigEntry) (ui : UserInput)
    (hre : st.reauth_entry = none)
    (hhost : ui.host ∉ async_current_hosts entries)
    (huid : st.unique_id = none) :
    (∀ s, fetch = FetchOutcome.ok s → s ≠ "" →
      uniqueIdHostConfigured entries s ui.host = false →
      async_step_user GetDataOutcome.success fetch st entries (some ui) =
        ⟨entries, { st with unique_id := some s },
          FlowResult.createEntry ("Envoy " ++ s)
            (userInputData ui ("Envoy " ++ s))⟩) ∧
    (fetch = FetchOutcome.transportError →
      async_step_user GetDataOutcome.success fetch st entries (some ui) =
        ⟨entries, st,
          FlowResult.createEntry "Envoy" (userInputData ui "Envoy")⟩) := by
  constructor
  · rintro s rfl hs hconf
    simp [async_step_user, validate_input, hre, hhost, huid, fetchPhase,
      async_set_unique_id_from_envoy, truthy, async_envoy_name, hs, hconf,
      userInputData]
  · rintro rfl
    simp [async_step_user, validate_input, hre, hhost, huid, fetchPhase,
      async_set_unique_id_from_envoy, truthy, async_envoy_name,
      userInputData]

theorem user_step_created_entry_title_witness :
    (∀ s, FetchOutcome.ok "5678" = FetchOutcome.ok s → s ≠ "" →
      uniqueIdHostConfigured [] s sampleInput.host = false →
      async_step_user GetDataOutcome.success (FetchOutcome.ok "5678")
          freshState [] (some sampleInput) =
        ⟨[], { freshState with unique_id := some s },
          FlowResult.createEntry ("Envoy " ++ s)
            (userInputData sampleInput ("Envoy " ++ s))⟩) ∧
    (FetchOutcome.ok "5678" = FetchOutcome.transportError →
      async_step_user GetDataOutcome.success (FetchOutcome.ok "5678")
          freshState [] (some sampleInput) =
        ⟨[], freshState,
          FlowResult.createEntry "Envoy" (userInputData sampleInput "Envoy")⟩) :=
  user_step_created_entry_title (FetchOutcome.ok "5678") freshState []
    sampleInput rfl (by decide) rfl

/-- C6: the user-form submit handler recovers every modelled
device-client failure at the form boundary: no submission outcome
escapes the flow (each one is a redisplayed form, an abort, or a
created entry), and in particular a transport error during the
best-effort serial fetch is suppressed, leaving the unique id unset and
still creating the generically named entry. -/
theorem user_step_errors_recovered (getData : GetDataOutcome)
    (fetch : FetchOutcome) (st : FlowState) (entries : List ConfigEntry)
    (inp : Option UserInput) :
    (async_step_user getData fetch st entries inp).result ≠
      FlowResult.proceedUser ∧
    (∀ ui, inp = some ui → st.reauth_entry = none → st.unique_id = none →
      ui.host ∉ async_current_hosts entries →
      getData = GetDataOutcome.success →
      fetch = FetchOutcome.transportError →
      (async_step_user getData fetch st entries inp).state.unique_id = none ∧
      (async_step_user getData fetch st entries inp).result =
        FlowResult.createEntry "Envoy" (userInputData ui "Envoy")) := by
  refine ⟨async_step_user_result_not_proceed getData fetch st entries inp, ?_⟩
  rintro ui rfl hre huid hhost rfl rfl
  simp [async_step_user, validate_input, hre, hhost, huid, fetchPhase,
    async_set_unique_id_from_envoy, truthy, async_envoy_name, userInputData]

theorem user_step_errors_recovered_witness :
    (async_step_user GetDataOutcome.success FetchOutcome.transportError
        freshState [] (some sampleInput)).result ≠
      FlowResult.proceedUser ∧
    (∀ ui, some sampleInput = some ui → freshState.reauth_entry = none →
      freshState.unique_id = none →
      ui.host ∉ async_current_hosts [] →
      GetDataOutcome.success = GetDataOutcome.success →
      FetchOutcome.transportError = FetchOutcome.transportError →
      (async_step_user GetDataOutcome.success FetchOutcome.transportError
          freshState [] (some sampleInput)).state.unique_id = none ∧
      (async_step_user GetDataOutcome.success FetchOutcome.transportError
          freshState [] (some sampleInput)).result =
        FlowResult.createEntry "Envoy" (userInputData ui "Envoy")) :=
  user_step_errors_recovered GetDataOutcome.success
    FetchOutcome.transportError freshState [] (some sampleInput)

/-- C8: after a successful validation in a non-reauth flow, when a
unique id is known once the fetch phase has run (either known
beforehand or just fetched), the flow aborts as `"already_configured"`
exactly when another store entry already claims that unique id together
with the submitted host; otherwise it creates the entry named from the
unique id. -/
theorem user_step_unique_id_conflict_iff (fetch : FetchOutcome)
    (st : FlowState) (entries : List ConfigEntry) (ui : UserInput)
    (hre : st.reauth_entry = none)
    (hhost : ui.host ∉ async_current_hosts entries)
    (htruthy : truthy (fetchPhase st fetch).1.unique_id = true) :
    ((async_step_user GetDataOutcome.success fetch st entries
        (some ui)).result = FlowResult.abort "already_configured" ↔
      uniqueIdHostConfigured entries
        ((fetchPhase st fetch).1.unique_id.getD "") ui.host = true) ∧
    (uniqueIdHostConfigured entries
        ((fetchPhase st fetch).1.unique_id.getD "") ui.host = false →
      (async_step_user GetDataOutcome.success fetch st entries
          (some ui)).result =
        FlowResult.createEntry
          (async_envoy_name (fetchPhase st fetch).1.unique_id)
          (userInputData ui
            (async_envoy_name (fetchPhase st fetch).1.unique_id))) := by
  by_cases hconf : uniqueIdHostConfigured entries
      ((fetchPhase st fetch).1.unique_id.getD "") ui.host
  · have hres : (async_step_user GetDataOutcome.success fetch st entries
        (some ui)).result = FlowResult.abort "already_configured" := by
      simp [async_step_user, validate_input, hre, hhost, htruthy, hconf]
    refine ⟨⟨fun _ => hconf, fun _ => hres⟩, fun hfalse => ?_⟩
    rw [hconf] at hfalse
    cases hfalse
  · have hsnd := fetchPhase_fst_of_not_snd st fetch
    have hres : (async_step_user GetDataOutcome.success fetch st entries
        (some ui)).result =
        FlowResult.createEntry
          (async_envoy_name (fetchPhase st fetch).1.unique_id)
          (userInputData ui
            (async_envoy_name (fetchPhase st fetch).1.unique_id)) := by
      by_cases hfp : (fetchPhase st fetch).2
      · simp [async_step_user, validate_input, hre, hhost, htruthy, hconf,
          hfp, userInputData, async_envoy_name]
      · have h1 := hsnd (by simpa using hfp)
        rw [h1] at htruthy hconf
        simp [async_step_user, validate_input, hre, hhost, htruthy, hconf,
          hfp, h1, userInputData, async_envoy_name]
    refine ⟨⟨fun habort => ?_, fun htrue => absurd htrue hconf⟩, fun _ => hres⟩
    rw [hres] at habort
    cases habort

/-- A flow state that already knows the device's serial, as after a
zeroconf discovery. -/
def discoveredState : FlowState :=
  { ip_address := some "10.0.0.20", unique_id := some "1234",
    reauth_entry := none }

theorem user_step_unique_id_conflict_iff_witness :
    ((async_step_user GetDataOutcome.success FetchOutcome.transportError
        discoveredState [] (some sampleInput)).result =
        FlowResult.abort "already_configured" ↔
      uniqueIdHostConfigured []
        ((fetchPhase discoveredState
          FetchOutcome.transportError).1.unique_id.getD "")
        sampleInput.host = true) ∧
    (uniqueIdHostConfigured []
        ((fetchPhase discoveredState
          FetchOutcome.transportError).1.unique_id.getD "")
        sampleInput.host = false →
      (async_step_user GetDataOutcome.success FetchOutcome.transportError
          discoveredState [] (some sampleInput)).result =
        FlowResult.createEntry
          (async_envoy_name (fetchPhase discoveredState
            FetchOutcome.transportError).1.unique_id)
          (userInputData sampleInput
            (async_envoy_name (fetchPhase discoveredState
              FetchOutcome.transportError).1.unique_id))) :=
  user_step_unique_id_conflict_iff FetchOutcome.transportError
    discoveredState [] sampleInput rfl (by decide) (by decide)

end EnphaseEnvoy
